import Mathlib

/-!
Verification of the location-based multi-disaster prediction core
(`multi_disaster/app_location.py`): the geographic classification cascades
(`is_coastal_location`, `get_forest_coverage`, the seismic-zone cascade of
`estimate_earthquake_risk_from_location`), the per-hazard probability
calibration applied in `predict_all_disasters` / `predict_future_for_location`,
the fallback table used when the underlying classifier raises, the feature
vector assembly, and the inland branch of the cyclone feature synthesizer.

Real numbers of the Python code are modelled as rationals; the values drawn
from `np.random` are passed in explicitly so that (non-)dependence on them can
be stated.
-/

/-- Bounding-box cascade of `is_coastal_location` (app_location.py lines
206-245): each known-inland box returns `false`, the default is `true`. -/
def is_coastal_location (lat lon : ℚ) : Bool :=
  if 20 < lat ∧ lat < 30 ∧ 75 < lon ∧ lon < 82 then false      -- Delhi, Jaipur, Agra, Lucknow
  else if 21 < lat ∧ lat < 24 ∧ 72 < lon ∧ lon < 75 then false -- Gujarat inland
  else if 23 < lat ∧ lat < 27 ∧ 82 < lon ∧ lon < 87 then false -- Madhya Pradesh, Bihar
  else if 30 < lat ∧ lat < 45 ∧ -105 < lon ∧ lon < -85 then false -- central USA
  else if 45 < lat ∧ lat < 55 ∧ 10 < lon ∧ lon < 30 then false -- central Europe
  else if 48 < lat ∧ lat < 53 ∧ 13 < lon ∧ lon < 15 then false -- Berlin area
  else if 35 < lat ∧ lat < 50 ∧ 50 < lon ∧ lon < 90 then false -- central Asia
  else if -30 < lat ∧ lat < -15 ∧ -58 < lon ∧ lon < -47 then false -- inland Brazil
  else if -2 < lat ∧ lat < 2 ∧ 28 < lon ∧ lon < 32 then false  -- central Africa
  else if 30 < lat ∧ lat < 42 ∧ 108 < lon ∧ lon < 118 then false -- inland China
  else true

/-- First-match cascade of `get_forest_coverage` (app_location.py lines
247-317): urban/desert boxes give 0, rainforest/boreal belts give 3,
moderate belts give 2, default 1. -/
def get_forest_coverage (lat lon : ℚ) : ℕ :=
  if 28 < lat ∧ lat < 29 ∧ 76.5 < lon ∧ lon < 77.5 then 0      -- Delhi NCR
  else if 15 < lat ∧ lat < 35 ∧ 35 < lon ∧ lon < 60 then 0     -- Arabian desert
  else if 15 < lat ∧ lat < 35 ∧ -15 < lon ∧ lon < 35 then 0    -- Sahara
  else if -30 < lat ∧ lat < -20 ∧ 130 < lon ∧ lon < 145 then 0 -- Australian outback
  else if 40.5 < lat ∧ lat < 41 ∧ -74.5 < lon ∧ lon < -73.5 then 0 -- NYC
  else if 51.3 < lat ∧ lat < 51.7 ∧ -0.3 < lon ∧ lon < 0.2 then 0  -- London
  else if 48.7 < lat ∧ lat < 49 ∧ 2.2 < lon ∧ lon < 2.5 then 0     -- Paris
  else if 35.5 < lat ∧ lat < 35.8 ∧ 139.5 < lon ∧ lon < 139.9 then 0 -- Tokyo
  else if 39.8 < lat ∧ lat < 40 ∧ 116.2 < lon ∧ lon < 116.6 then 0   -- Beijing
  else if -10 < lat ∧ lat < 5 ∧ -75 < lon ∧ lon < -50 then 3   -- Amazon
  else if -5 < lat ∧ lat < 5 ∧ 15 < lon ∧ lon < 30 then 3      -- Congo basin
  else if -10 < lat ∧ lat < 10 ∧ 95 < lon ∧ lon < 120 then 3   -- SE Asian rainforest
  else if 45 < lat ∧ lat < 60 ∧ -130 < lon ∧ lon < -115 then 3 -- Canada, Pacific NW
  else if 45 < lat ∧ lat < 60 ∧ -80 < lon ∧ lon < -70 then 3   -- NE American forest
  else if 50 < lat ∧ lat < 70 ∧ 60 < lon ∧ lon < 140 then 3    -- Siberian forest
  else if 8 < lat ∧ lat < 16 ∧ 73 < lon ∧ lon < 78 then 2      -- Western Ghats
  else if 35 < lat ∧ lat < 42 ∧ -125 < lon ∧ lon < -115 then 2 -- California
  else if 45 < lat ∧ lat < 55 ∧ 5 < lon ∧ lon < 20 then 2      -- European forest
  else 1

/-- Seismic-zone cascade of `estimate_earthquake_risk_from_location`
(app_location.py lines 465-589), returning the `seismic_intensity` tier set
by the first matching bounding box (0 = stable craton default). -/
def seismic_zone_tier (lat lon : ℚ) : ℕ :=
  if 26.5 < lat ∧ lat < 28.5 ∧ 84 < lon ∧ lon < 87 then 4      -- Nepal Himalayan collision
  else if 34 < lat ∧ lat < 42 ∧ 138 < lon ∧ lon < 143 then 4   -- Japan subduction
  else if 33 < lat ∧ lat < 38.5 ∧ -123 < lon ∧ lon < -117 then 4 -- San Andreas
  else if -6 < lat ∧ lat < 6 ∧ 95 < lon ∧ lon < 107 then 4     -- Sunda megathrust
  else if -43 < lat ∧ lat < -40 ∧ 172 < lon ∧ lon < 175 then 4 -- NZ Alpine fault
  else if -38 < lat ∧ lat < -33 ∧ -73 < lon ∧ lon < -70 then 4 -- Chilean subduction
  else if 14 < lat ∧ lat < 16 ∧ 120 < lon ∧ lon < 122 then 4   -- Philippine fault
  else if 28 < lat ∧ lat < 35 ∧ 73 < lon ∧ lon < 81 then 3     -- Kashmir
  else if 38 < lat ∧ lat < 42 ∧ 26 < lon ∧ lon < 45 then 3     -- North Anatolian
  else if 28 < lat ∧ lat < 38 ∧ 48 < lon ∧ lon < 62 then 3     -- Iranian plateau
  else if 36 < lat ∧ lat < 41 ∧ 20 < lon ∧ lon < 28 then 3     -- Hellenic arc
  else if 60 < lat ∧ lat < 65 ∧ -152 < lon ∧ lon < -147 then 3 -- Alaska subduction
  else if 18 < lat ∧ lat < 20 ∧ -100 < lon ∧ lon < -98 then 3  -- Mexican volcanic belt
  else if 47 < lat ∧ lat < 50 ∧ -125 < lon ∧ lon < -122 then 3 -- Cascadia
  else if 25 < lat ∧ lat < 32 ∧ 82 < lon ∧ lon < 95 then 2     -- eastern Himalaya
  else if 40 < lat ∧ lat < 43 ∧ 12 < lon ∧ lon < 16 then 2     -- Apennines
  else if 22 < lat ∧ lat < 25 ∧ 120 < lon ∧ lon < 122 then 2   -- Taiwan
  else if 10 < lat ∧ lat < 15 ∧ -92 < lon ∧ lon < -85 then 2   -- Central American arc
  else if 35 < lat ∧ lat < 42 ∧ -80 < lon ∧ lon < -70 then 1   -- eastern US intraplate
  else if 48 < lat ∧ lat < 52 ∧ 10 < lon ∧ lon < 16 then 1     -- central European platform
  else if -35 < lat ∧ lat < -33 ∧ 150 < lon ∧ lon < 152 then 1 -- Sydney basin
  else 0

/-- Base magnitude anchor per seismic tier (app_location.py lines 591-601). -/
def base_mag (tier : ℕ) : ℚ :=
  if tier = 4 then 5.5
  else if tier = 3 then 4.5
  else if tier = 2 then 3.5
  else if tier = 1 then 2.5
  else 1.5

/-- Re-derivation of the seismic intensity tier from a synthesized magnitude,
as done in `predict_all_disasters` (lines 666-676) and
`predict_future_for_location` (lines 870-878). -/
def intensity_from_mag (m : ℚ) : ℕ :=
  if m > 5 then 4
  else if m > 4 then 3
  else if m > 3 then 2
  else if m > 2 then 1
  else 0


/-- Hazard types of the system. -/
inductive Hazard
  | flood
  | cyclone
  | fire
  | earthquake
deriving DecidableEq

/-- Cyclone calibration of `predict_all_disasters` (lines 709-713) and
`predict_future_for_location` (lines 907-909): inland coordinates get the
raw probability scaled by 0.1 and capped at 0.15, coastal ones are untouched. -/
def calibrate_cyclone (coastal : Bool) (p : ℚ) : ℚ :=
  if coastal = false then min (p * 0.1) 0.15 else p

/-- Fire calibration of `predict_all_disasters` (lines 731-737) and
`predict_future_for_location` (lines 911-916), keyed on the forest tier. -/
def calibrate_fire (forest : ℕ) (p : ℚ) : ℚ :=
  if forest = 0 then min (p * 0.15) 0.20
  else if forest = 1 then p * 0.6
  else p

/-- Earthquake calibration of `predict_all_disasters` (lines 754-778) and
`predict_future_for_location` (lines 918-929), keyed on the seismic tier;
the final branch is the code's `else` (tier 4) case. -/
def calibrate_earthquake (tier : ℕ) (p : ℚ) : ℚ :=
  if tier = 0 then min (p * 0.05) 0.10
  else if tier = 1 then min (p * 0.3) 0.25
  else if tier = 2 then min (max (p * 0.5) 0.25) 0.50
  else if tier = 3 then min (max (p * 0.8) 0.50) 0.75
  else min (max p 0.70) 0.95

/-- Per-hazard calibration dispatch of `predict_all_disasters`: flood is passed
through unchanged, the other hazards use their geo-context-keyed rule. -/
def calibrate_prob (h : Hazard) (coastal : Bool) (forest tier : ℕ) (p : ℚ) : ℚ :=
  match h with
  | .flood => p
  | .cyclone => calibrate_cyclone coastal p
  | .fire => calibrate_fire forest p
  | .earthquake => calibrate_earthquake tier p

/-- Earthquake fallback table `fallback_prob.get(seismic_intensity, 0.3)` used
when the classifier raises (lines 784-785 and 935-936). -/
def earthquake_fallback (tier : ℕ) : ℚ :=
  if tier = 0 then 0.05
  else if tier = 1 then 0.20
  else if tier = 2 then 0.40
  else if tier = 3 then 0.65
  else if tier = 4 then 0.85
  else 0.3

/-- Per-hazard probability of a prediction call: `some p` is a successful
classifier call returning raw probability `p` (then calibrated); `none` is a
classifier call that raised, mapped to the hazard's fallback value inside the
`except` branches of `predict_all_disasters` / `predict_future_for_location`
(lines 694-696, 716-718, 739-741, 781-785, 932-938) instead of propagating. -/
def predict_hazard_prob (h : Hazard) (coastal : Bool) (forest tier : ℕ)
    (raw : Option ℚ) : ℚ :=
  match raw with
  | some p => calibrate_prob h coastal forest tier p
  | none =>
    match h with
    | .earthquake => earthquake_fallback tier
    | _ => 0.3

/-- Model input assembly `np.array([[params.get(f, 0) for f in features]])`
(lines 688, 703, 725, 748, 901): one entry per schema name, in schema order,
absent names substituted by 0. -/
def build_vector (schema : List String) (fv : String → Option ℚ) : List ℚ :=
  schema.map (fun f => (fv f).getD 0)

/-- Cyclone feature vector produced by `estimate_cyclone_risk_from_location`
(lines 319-375). -/
structure CycloneFeatures where
  sea_surface_temperature : ℚ
  atmospheric_pressure : ℚ
  humidity : ℚ
  wind_shear : ℚ
  vorticity : ℚ
  latitude : ℚ
  ocean_depth : ℚ
  proximity_to_coastline : ℚ
  pre_existing_disturbance : ℚ
deriving DecidableEq

/-- One value per `np.random` call site of the coastal branch of
`estimate_cyclone_risk_from_location`; each field stands for the number that
call would have drawn (its documented range in the comment). -/
structure CycloneRand where
  pressureDraw : ℚ   -- np.random.uniform(995, 1008)
  sstJitter : ℚ      -- np.random.uniform(-0.5, 0.5)
  humidityBelt : ℚ   -- np.random.uniform(70, 90)
  humidityOther : ℚ  -- np.random.uniform(50, 70)
  windBelt : ℚ       -- np.random.uniform(5, 12)
  windOther : ℚ      -- np.random.uniform(15, 25)
  vortBelt : ℚ       -- np.random.uniform(0.00005, 0.0001)
  vortOther : ℚ      -- np.random.uniform(0.00001, 0.00003)
  oceanDepthDraw : ℚ -- np.random.uniform(200, 500)
  distDraw : ℚ       -- np.random.random()

/-- `estimate_cyclone_risk_from_location` (lines 319-375): the inland branch
returns a fixed feature dictionary using no random draw; the coastal branch
mixes latitude/season anchors with the `np.random` draws of `r`.  In the
coastal branch `is_coastal` is true, so `proximity` is 0.1 and `Ocean_Depth`
takes the drawn value. -/
def estimate_cyclone_risk_from_location (lat lon : ℚ) (month : ℕ)
    (r : CycloneRand) : CycloneFeatures :=
  if is_coastal_location lat lon = false then
    { sea_surface_temperature := 20
      atmospheric_pressure := 1013
      humidity := 50
      wind_shear := 25
      vorticity := 0.00001
      latitude := |lat|
      ocean_depth := 0
      proximity_to_coastline := 999
      pre_existing_disturbance := 0 }
  else
    { sea_surface_temperature :=
        (if |lat| < 20 ∧ (5 ≤ |lat| ∧ |lat| ≤ 30) then
          (if month ∈ [5, 6, 7, 8, 9, 10] then 28.5 + 1.5 else 28.5)
         else if |lat| > 40 then 22.0 else 27.0) + r.sstJitter
      atmospheric_pressure :=
        if (5 ≤ |lat| ∧ |lat| ≤ 30) ∧ month ∈ [5, 6, 7, 8, 9, 10] then
          r.pressureDraw
        else 1010
      humidity := if 5 ≤ |lat| ∧ |lat| ≤ 30 then r.humidityBelt else r.humidityOther
      wind_shear := if 5 ≤ |lat| ∧ |lat| ≤ 30 then r.windBelt else r.windOther
      vorticity := if 5 ≤ |lat| ∧ |lat| ≤ 30 then r.vortBelt else r.vortOther
      latitude := |lat|
      ocean_depth := r.oceanDepthDraw
      proximity_to_coastline := 0.1
      pre_existing_disturbance :=
        if (5 ≤ |lat| ∧ |lat| ≤ 30) ∧ r.distDraw > 0.6 then 1 else 0 }

/-- GeoContext-derived values used by one run of `predict_future_for_location`
(lines 864-878): `is_coastal` and `forest_level` are computed from the
coordinate alone; the seismic tier is re-derived from the synthesized
magnitude `base_mag + jitter` of that run's one
`estimate_earthquake_risk_from_location` call. -/
def forecast_context (lat lon jitter : ℚ) : Bool × ℕ × ℕ :=
  (is_coastal_location lat lon, get_forest_coverage lat lon,
   intensity_from_mag (base_mag (seismic_zone_tier lat lon) + jitter))

/-- The context of `forecast_context` is computed once before the day loop of
`predict_future_for_location` and reused for every forecast day, so as a
function of the day index it is constant. -/
def forecast_day_context (lat lon jitter : ℚ) (_day : ℕ) : Bool × ℕ × ℕ :=
  forecast_context lat lon jitter

/-- Modelled from the spec: `clamp(x, lo, hi) = max(min(x, hi), lo)`. -/
def spec_clamp (x lo hi : ℚ) : ℚ := max (min x hi) lo

/-- Modelled from the spec: the tier-keyed earthquake calibration formula of
the claim, stated with `spec_clamp`, to be compared with the code's
`calibrate_earthquake`. -/
def spec_earthquake_calibration (k : ℕ) (p : ℚ) : ℚ :=
  if k = 0 then min (p * 0.05) 0.10
  else if k = 1 then min (p * 0.3) 0.25
  else if k = 2 then spec_clamp (p * 0.5) 0.25 0.50
  else if k = 3 then spec_clamp (p * 0.8) 0.50 0.75
  else spec_clamp p 0.70 0.95

lemma clamp_min_max_comm (x lo hi : ℚ) (h : lo ≤ hi) :
    max (min x hi) lo = min (max x lo) hi := by
  rcases le_total x lo with h1 | h1 <;> rcases le_total x hi with h2 | h2 <;>
    simp [min_def, max_def] <;> split_ifs <;> linarith

/-- C1: for every raw earthquake probability p in [0,1] and every seismic tier
k in 0..4 supplied to the calibration step, the calibrated probability equals
the tier-keyed formula of the spec (scale multiplier before range clamp). -/
theorem c1_earthquake_calibration_matches_spec (k : ℕ) (p : ℚ)
    (_hk : k ≤ 4) (_hp0 : 0 ≤ p) (_hp1 : p ≤ 1) :
    calibrate_earthquake k p = spec_earthquake_calibration k p := by
  unfold calibrate_earthquake spec_earthquake_calibration spec_clamp
  split_ifs <;>
    first
      | rfl
      | exact (clamp_min_max_comm _ _ _ (by norm_num)).symm

theorem c1_earthquake_calibration_witness :
    (2:ℕ) ≤ 4 ∧ (0:ℚ) ≤ 1/2 ∧ (1/2:ℚ) ≤ 1 ∧
    calibrate_earthquake 2 (1/2) = spec_earthquake_calibration 2 (1/2) :=
  ⟨by norm_num, by norm_num, by norm_num,
   c1_earthquake_calibration_matches_spec 2 (1/2) (by norm_num) (by norm_num)
     (by norm_num)⟩

/-- C2: whenever `is_coastal_location` is false the calibrated cyclone
probability equals min(p*0.1, 0.15), hence is at most 0.15; coastal
coordinates leave the raw probability unchanged. -/
theorem c2_cyclone_inland_calibration (lat lon p : ℚ)
    (_hp0 : 0 ≤ p) (_hp1 : p ≤ 1) :
    (is_coastal_location lat lon = false →
      calibrate_cyclone (is_coastal_location lat lon) p = min (p * 0.1) 0.15 ∧
      calibrate_cyclone (is_coastal_location lat lon) p ≤ 0.15) ∧
    (is_coastal_location lat lon = true →
      calibrate_cyclone (is_coastal_location lat lon) p = p) := by
  constructor
  · intro h
    rw [h]
    unfold calibrate_cyclone
    simp only [if_pos rfl]
    exact ⟨rfl, min_le_right _ _⟩
  · intro h
    rw [h]
    unfold calibrate_cyclone
    simp

theorem c2_cyclone_inland_calibration_witness :
    (0:ℚ) ≤ 1/2 ∧ (1/2:ℚ) ≤ 1 ∧
    ((is_coastal_location 28.6139 77.2090 = false →
      calibrate_cyclone (is_coastal_location 28.6139 77.2090) (1/2) =
        min ((1/2) * 0.1) 0.15 ∧
      calibrate_cyclone (is_coastal_location 28.6139 77.2090) (1/2) ≤ 0.15) ∧
    (is_coastal_location 28.6139 77.2090 = true →
      calibrate_cyclone (is_coastal_location 28.6139 77.2090) (1/2) = 1/2)) :=
  ⟨by norm_num, by norm_num,
   c2_cyclone_inland_calibration 28.6139 77.2090 (1/2) (by norm_num) (by norm_num)⟩

/-- C3 counterexample: at the Kashmir tier-3 coordinate (30, 75) the jitters
0 and 1 are both inside numpy's uniform(-0.5, 1.5) range used for tiers ≥ 3,
yet the two runs of `predict_future_for_location` re-derive different seismic
intensity tiers (3 vs 4) for calibration, so two runs of the forecast for the
same coordinate need not use identical GeoContext-derived tier values. -/
theorem c3_forecast_tier_counterexample :
    seismic_zone_tier 30 75 = 3 ∧
    (-(1:ℚ)/2 ≤ 0 ∧ (0:ℚ) < 3/2) ∧ (-(1:ℚ)/2 ≤ 1 ∧ (1:ℚ) < 3/2) ∧
    forecast_context 30 75 0 = (true, 1, 3) ∧
    forecast_context 30 75 1 = (true, 1, 4) ∧
    forecast_context 30 75 0 ≠ forecast_context 30 75 1 := by
  have h3 : seismic_zone_tier 30 75 = 3 := by norm_num [seismic_zone_tier]
  have h0 : forecast_context 30 75 0 = (true, 1, 3) := by
    norm_num [forecast_context, is_coastal_location, get_forest_coverage, h3,
      base_mag, intensity_from_mag]
  have h1 : forecast_context 30 75 1 = (true, 1, 4) := by
    norm_num [forecast_context, is_coastal_location, get_forest_coverage, h3,
      base_mag, intensity_from_mag]
  refine ⟨h3, ⟨by norm_num, by norm_num⟩, ⟨by norm_num, by norm_num⟩, h0, h1, ?_⟩
  rw [h0, h1]
  simp

/-- C3 amended: `is_coastal` and the forest level are identical across all
days of both runs (they depend only on the coordinate), and within a single
run the seismic intensity tier is identical across all days (the context is
computed once before the day loop); but the seismic tier is re-derived from
the randomized synthesized magnitude and therefore may differ between two
independent runs. -/
theorem c3_forecast_context_determinism (lat lon j1 j2 : ℚ) (d d' : ℕ) :
    (forecast_day_context lat lon j1 d).1 = (forecast_day_context lat lon j2 d').1 ∧
    (forecast_day_context lat lon j1 d).2.1 = (forecast_day_context lat lon j2 d').2.1 ∧
    (forecast_day_context lat lon j1 d).2.2 = (forecast_day_context lat lon j1 d').2.2 :=
  ⟨rfl, rfl, rfl⟩

/-- C4 counterexample: the Amazon box of `get_forest_coverage` is the open
region -10 < lat < 5, so the coordinate (-10, -60) falls through to the
default tier 1 (not 3), and no inland box of `is_coastal_location` covers the
Amazon basin, so the coordinate is classified coastal (not inland). -/
theorem c4_amazon_counterexample :
    get_forest_coverage (-10) (-60) = 1 ∧
    is_coastal_location (-10) (-60) = true := by
  constructor
  · norm_num [get_forest_coverage]
  · norm_num [is_coastal_location]

/-- C4 amended: at (-10, -60) the forest tier is 1 and the location is
classified coastal; hence the tier-0 fire rule does not apply but the tier-1
fire reduction (×0.6) does, and the inland cyclone rule does not apply, the
raw cyclone probability passing through unchanged. -/
theorem c4_amazon_amended (p : ℚ) (_hp0 : 0 ≤ p) (_hp1 : p ≤ 1) :
    get_forest_coverage (-10) (-60) = 1 ∧
    is_coastal_location (-10) (-60) = true ∧
    calibrate_fire (get_forest_coverage (-10) (-60)) p = p * 0.6 ∧
    calibrate_cyclone (is_coastal_location (-10) (-60)) p = p := by
  have hf : get_forest_coverage (-10) (-60) = 1 := by norm_num [get_forest_coverage]
  have hc : is_coastal_location (-10) (-60) = true := by norm_num [is_coastal_location]
  refine ⟨hf, hc, ?_, ?_⟩
  · rw [hf]; norm_num [calibrate_fire]
  · rw [hc]; norm_num [calibrate_cyclone]

theorem c4_amazon_amended_witness :
    (0:ℚ) ≤ 1/2 ∧ (1/2:ℚ) ≤ 1 ∧
    (get_forest_coverage (-10) (-60) = 1 ∧
     is_coastal_location (-10) (-60) = true ∧
     calibrate_fire (get_forest_coverage (-10) (-60)) (1/2) = (1/2) * 0.6 ∧
     calibrate_cyclone (is_coastal_location (-10) (-60)) (1/2) = 1/2) :=
  ⟨by norm_num, by norm_num, c4_amazon_amended (1/2) (by norm_num) (by norm_num)⟩

/-- C5 counterexample: Kathmandu (27.7172, 85.3240) is in the tier-4 Nepal
box, but the calibration tier is re-derived from the synthesized magnitude
`base_mag + jitter` with the strict test `mag > 5.0`; numpy's
uniform(-0.5, 1.5) includes its lower endpoint, and at jitter = -0.5 the
magnitude is exactly 5.0, the re-derived tier is 3, and raw probability 0.0
calibrates to 0.5, which is below 0.70. -/
theorem c5_kathmandu_counterexample :
    seismic_zone_tier 27.7172 85.3240 = 4 ∧
    (-(1:ℚ)/2 ≤ -(1:ℚ)/2 ∧ -(1:ℚ)/2 < 3/2) ∧
    base_mag (seismic_zone_tier 27.7172 85.3240) + (-(1:ℚ)/2) = 5 ∧
    intensity_from_mag (base_mag (seismic_zone_tier 27.7172 85.3240) + (-(1:ℚ)/2)) = 3 ∧
    calibrate_earthquake
      (intensity_from_mag (base_mag (seismic_zone_tier 27.7172 85.3240) + (-(1:ℚ)/2)))
      0 = 1/2 ∧
    ¬((0.70:ℚ) ≤ 1/2) := by
  have hz : seismic_zone_tier 27.7172 85.3240 = 4 := by norm_num [seismic_zone_tier]
  have hm : base_mag (seismic_zone_tier 27.7172 85.3240) + (-(1:ℚ)/2) = 5 := by
    rw [hz]; norm_num [base_mag]
  have hi : intensity_from_mag (base_mag (seismic_zone_tier 27.7172 85.3240) + (-(1:ℚ)/2)) = 3 := by
    rw [hm]; norm_num [intensity_from_mag]
  refine ⟨hz, ⟨le_refl _, by norm_num⟩, hm, hi, ?_, by norm_num⟩
  rw [hi]
  norm_num [calibrate_earthquake]

/-- C5 amended: at Kathmandu, for every raw probability in [0,1] and every
magnitude jitter strictly above the lower endpoint -0.5 of numpy's
uniform(-0.5, 1.5) range, the re-derived tier is 4 and the calibrated
earthquake probability lies in [0.70, 0.95]; at the endpoint jitter -0.5 the
re-derived tier drops to 3 (see the counterexample). -/
theorem c5_kathmandu_amended (p j : ℚ) (_hp0 : 0 ≤ p) (_hp1 : p ≤ 1)
    (hj1 : -(1:ℚ)/2 < j) (_hj2 : j < 3/2) :
    0.70 ≤ calibrate_earthquake
        (intensity_from_mag (base_mag (seismic_zone_tier 27.7172 85.3240) + j)) p ∧
    calibrate_earthquake
        (intensity_from_mag (base_mag (seismic_zone_tier 27.7172 85.3240) + j)) p ≤ 0.95 := by
  have hz : seismic_zone_tier 27.7172 85.3240 = 4 := by norm_num [seismic_zone_tier]
  rw [hz]
  have hb : base_mag 4 = 5.5 := by norm_num [base_mag]
  rw [hb]
  have hi : intensity_from_mag (5.5 + j) = 4 := by
    unfold intensity_from_mag
    rw [if_pos (by norm_num; linarith)]
  rw [hi]
  have hc : calibrate_earthquake 4 p = min (max p 0.70) 0.95 := by
    norm_num [calibrate_earthquake]
  rw [hc]
  constructor
  · exact le_min (le_max_right _ _) (by norm_num)
  · exact min_le_right _ _

theorem c5_kathmandu_amended_witness :
    (0:ℚ) ≤ 0 ∧ (0:ℚ) ≤ 1 ∧ -(1:ℚ)/2 < 0 ∧ (0:ℚ) < 3/2 ∧
    (0.70 ≤ calibrate_earthquake
        (intensity_from_mag (base_mag (seismic_zone_tier 27.7172 85.3240) + 0)) 0 ∧
     calibrate_earthquake
        (intensity_from_mag (base_mag (seismic_zone_tier 27.7172 85.3240) + 0)) 0 ≤ 0.95) :=
  ⟨le_refl _, by norm_num, by norm_num, by norm_num,
   c5_kathmandu_amended 0 0 (le_refl _) (by norm_num) (by norm_num) (by norm_num)⟩

/-- C6: for every hazard, every coordinate, every magnitude jitter and every
raw probability in [0,1], the calibrated probability of
`predict_all_disasters` lies in [0,1] (the flood path passes the raw
probability through unchanged). -/
theorem c6_calibrated_prob_unit_interval (h : Hazard) (lat lon jitter p : ℚ)
    (hp0 : 0 ≤ p) (hp1 : p ≤ 1) :
    0 ≤ calibrate_prob h (is_coastal_location lat lon) (get_forest_coverage lat lon)
          (intensity_from_mag (base_mag (seismic_zone_tier lat lon) + jitter)) p ∧
    calibrate_prob h (is_coastal_location lat lon) (get_forest_coverage lat lon)
          (intensity_from_mag (base_mag (seismic_zone_tier lat lon) + jitter)) p ≤ 1 := by
  generalize is_coastal_location lat lon = coastal
  generalize get_forest_coverage lat lon = forest
  generalize intensity_from_mag (base_mag (seismic_zone_tier lat lon) + jitter) = tier
  cases h with
  | flood => exact ⟨hp0, hp1⟩
  | cyclone =>
    unfold calibrate_prob calibrate_cyclone
    split_ifs
    · constructor
      · exact le_min (by linarith) (by norm_num)
      · exact le_trans (min_le_right _ _) (by norm_num)
    · exact ⟨hp0, hp1⟩
  | fire =>
    unfold calibrate_prob calibrate_fire
    split_ifs
    · constructor
      · exact le_min (by linarith) (by norm_num)
      · exact le_trans (min_le_right _ _) (by norm_num)
    · constructor
      · linarith
      · linarith
    · exact ⟨hp0, hp1⟩
  | earthquake =>
    unfold calibrate_prob calibrate_earthquake
    split_ifs
    · constructor
      · exact le_min (by linarith) (by norm_num)
      · exact le_trans (min_le_right _ _) (by norm_num)
    · constructor
      · exact le_min (by linarith) (by norm_num)
      · exact le_trans (min_le_right _ _) (by norm_num)
    · constructor
      · exact le_min (le_trans (by norm_num) (le_max_right _ _)) (by norm_num)
      · exact le_trans (min_le_right _ _) (by norm_num)
    · constructor
      · exact le_min (le_trans (by norm_num) (le_max_right _ _)) (by norm_num)
      · exact le_trans (min_le_right _ _) (by norm_num)
    · constructor
      · exact le_min (le_trans (by norm_num) (le_max_right _ _)) (by norm_num)
      · exact le_trans (min_le_right _ _) (by norm_num)

theorem c6_calibrated_prob_unit_interval_witness :
    (0:ℚ) ≤ 1/2 ∧ (1/2:ℚ) ≤ 1 ∧
    (0 ≤ calibrate_prob Hazard.earthquake (is_coastal_location 27.7172 85.3240)
           (get_forest_coverage 27.7172 85.3240)
           (intensity_from_mag (base_mag (seismic_zone_tier 27.7172 85.3240) + 0)) (1/2) ∧
     calibrate_prob Hazard.earthquake (is_coastal_location 27.7172 85.3240)
           (get_forest_coverage 27.7172 85.3240)
           (intensity_from_mag (base_mag (seismic_zone_tier 27.7172 85.3240) + 0)) (1/2) ≤ 1) :=
  ⟨by norm_num, by norm_num,
   c6_calibrated_prob_unit_interval Hazard.earthquake 27.7172 85.3240 0 (1/2)
     (by norm_num) (by norm_num)⟩

/-- C7: assembling the model input from a schema list and a partial
feature mapping yields exactly one entry per schema name, in schema order,
substituting 0 for any absent name. -/
theorem c7_build_vector_schema (schema : List String) (fv : String → Option ℚ) :
    (build_vector schema fv).length = schema.length ∧
    ∀ i : Fin schema.length,
      (build_vector schema fv).getD i.val 0 = (fv (schema.get i)).getD 0 := by
  constructor
  · simp [build_vector]
  · intro i
    have hlen : i.val < (build_vector schema fv).length := by
      simp [build_vector]
    rw [List.getD_eq_getElem _ _ hlen]
    simp [build_vector]

/-- C8: fire calibration equals min(p*0.15, 0.20) at forest tier 0, p*0.6
(no cap) at tier 1, and passes the raw probability through at tiers 2 and 3. -/
theorem c8_fire_calibration_rules (p : ℚ) (_hp0 : 0 ≤ p) (_hp1 : p ≤ 1) :
    calibrate_fire 0 p = min (p * 0.15) 0.20 ∧
    calibrate_fire 1 p = p * 0.6 ∧
    calibrate_fire 2 p = p ∧
    calibrate_fire 3 p = p := by
  refine ⟨?_, ?_, ?_, ?_⟩ <;> norm_num [calibrate_fire]

theorem c8_fire_calibration_rules_witness :
    (0:ℚ) ≤ 1/2 ∧ (1/2:ℚ) ≤ 1 ∧
    (calibrate_fire 0 (1/2) = min ((1/2) * 0.15) 0.20 ∧
     calibrate_fire 1 (1/2) = (1/2) * 0.6 ∧
     calibrate_fire 2 (1/2) = 1/2 ∧
     calibrate_fire 3 (1/2) = 1/2) :=
  ⟨by norm_num, by norm_num,
   c8_fire_calibration_rules (1/2) (by norm_num) (by norm_num)⟩

/-- C9: when the classifier call raises (`none`), no exception propagates —
the result is total — and the fallback probability is 0.3 for flood, cyclone
and fire, and the seismic-tier-keyed table value
{0: 0.05, 1: 0.20, 2: 0.40, 3: 0.65, 4: 0.85} for earthquake. -/
theorem c9_classifier_exception_fallback (coastal : Bool) (forest tier : ℕ) :
    predict_hazard_prob Hazard.flood coastal forest tier none = 0.3 ∧
    predict_hazard_prob Hazard.cyclone coastal forest tier none = 0.3 ∧
    predict_hazard_prob Hazard.fire coastal forest tier none = 0.3 ∧
    predict_hazard_prob Hazard.earthquake coastal forest 0 none = 0.05 ∧
    predict_hazard_prob Hazard.earthquake coastal forest 1 none = 0.20 ∧
    predict_hazard_prob Hazard.earthquake coastal forest 2 none = 0.40 ∧
    predict_hazard_prob Hazard.earthquake coastal forest 3 none = 0.65 ∧
    predict_hazard_prob Hazard.earthquake coastal forest 4 none = 0.85 := by
  refine ⟨rfl, rfl, rfl, ?_, ?_, ?_, ?_, ?_⟩ <;>
    norm_num [predict_hazard_prob, earthquake_fallback]

/-- C10: for every inland coordinate and every month, the cyclone feature
synthesizer ignores every random draw and returns the one fixed feature
vector (SST 20, pressure 1013, humidity 50, wind shear 25, vorticity 0.00001,
latitude |lat|, ocean depth 0, proximity 999, disturbance 0), so two runs on
the same inland coordinate always produce identical cyclone vectors. -/
theorem c10_inland_cyclone_deterministic (lat lon : ℚ) (month : ℕ)
    (r1 r2 : CycloneRand) (h : is_coastal_location lat lon = false) :
    estimate_cyclone_risk_from_location lat lon month r1 =
      estimate_cyclone_risk_from_location lat lon month r2 ∧
    estimate_cyclone_risk_from_location lat lon month r1 =
      { sea_surface_temperature := 20
        atmospheric_pressure := 1013
        humidity := 50
        wind_shear := 25
        vorticity := 0.00001
        latitude := |lat|
        ocean_depth := 0
        proximity_to_coastline := 999
        pre_existing_disturbance := 0 } := by
  unfold estimate_cyclone_risk_from_location
  rw [if_pos h, if_pos h]
  exact ⟨rfl, rfl⟩

theorem c10_inland_cyclone_deterministic_witness :
    is_coastal_location 28.6139 77.2090 = false ∧
    (estimate_cyclone_risk_from_location 28.6139 77.2090 6
        ⟨0, 0, 0, 0, 0, 0, 0, 0, 0, 0⟩ =
      estimate_cyclone_risk_from_location 28.6139 77.2090 6
        ⟨1, 1, 1, 1, 1, 1, 1, 1, 1, 1⟩ ∧
     estimate_cyclone_risk_from_location 28.6139 77.2090 6
        ⟨0, 0, 0, 0, 0, 0, 0, 0, 0, 0⟩ =
      { sea_surface_temperature := 20
        atmospheric_pressure := 1013
        humidity := 50
        wind_shear := 25
        vorticity := 0.00001
        latitude := |(28.6139:ℚ)|
        ocean_depth := 0
        proximity_to_coastline := 999
        pre_existing_disturbance := 0 }) :=
  ⟨by norm_num [is_coastal_location],
   c10_inland_cyclone_deterministic 28.6139 77.2090 6 _ _
     (by norm_num [is_coastal_location])⟩
